import Mathlib

/-!
Verification of the identity-resolution engine of the `porto` repository
(package `gserver/roles`), against its natural-language specification.

The repository snapshot under inspection contains the test file of the
`roles` package (`roles_test`: `Test_Empty`, `Test_All`, `TestInvalidIssuer`,
`TestInvalidAudience`, `Test_DPoPInvalid`, `TestTLSOnly`) but not the
implementation file of the package itself.  The resolver, the transport
bindings and the role mapper below are therefore modelled from the
specification (sections 3, 4 and 6), and every behaviour they exhibit is
cross-checked against the concrete scenarios of the in-repository tests.

Machine strings are Lean `String`s; scheme parsing is done on the
underlying character lists so that all operations are executable and
kernel-reducible.
-/

namespace Porto

/-- Claim values as produced by the injected JWT verifier or the opaque
access-token introspector: a string, a list of strings (e.g. `aud`), or a
nested map (e.g. the `cnf` confirmation claim). -/
inductive ClaimValue where
  | vStr : String → ClaimValue
  | vList : List String → ClaimValue
  | vMap : List (String × ClaimValue) → ClaimValue

/-- Claims: a mapping from claim name to value, read-only to the core. -/
abbrev Claims := List (String × ClaimValue)

/-- Lookup of a claim (or a nested-map entry) by name, first binding wins. -/
def lookupClaim : Claims → String → Option ClaimValue
  | [], _ => none
  | (k, v) :: rest, key => if k = key then some v else lookupClaim rest key

/-- String value of a claim; empty when absent or not a string. -/
def claimStr (c : Claims) (k : String) : String :=
  match lookupClaim c k with
  | some (ClaimValue.vStr s) => s
  | _ => ""

/-- Modelled from the spec: `TLSIdentityMap` of the missing `roles`
package configuration (spec section 3). -/
structure TLSIdentityMap where
  Enabled : Bool
  DefaultAuthenticatedRole : String
  Roles : List (String × List String)

/-- Modelled from the spec: `JWTIdentityMap` of the missing `roles`
package configuration (spec section 3); also used for the DPoP source. -/
structure JWTIdentityMap where
  Enabled : Bool
  Issuer : String
  Audience : String
  SubjectClaim : String
  RoleClaim : String
  DefaultAuthenticatedRole : String
  Roles : List (String × List String)

/-- Modelled from the spec: `IdentityMap` aggregating the three provider
configurations (spec section 3). -/
structure IdentityMap where
  TLS : TLSIdentityMap
  JWT : JWTIdentityMap
  DPoP : JWTIdentityMap

/-- The resolved identity: role, subject and tenant. -/
structure Identity where
  role : String
  subject : String
  tenant : String
deriving DecidableEq

/-- Name of the guest role. -/
def GuestRoleName : String := "guest"

/-- The constant Guest identity: guest role, empty subject and tenant. -/
def Guest : Identity := ⟨GuestRoleName, "", ""⟩

/-- First role whose value list contains `value`; linear scan. -/
def findRole (value : String) : List (String × List String) → Option String
  | [] => none
  | (r, vs) :: rest => if value ∈ vs then some r else findRole value rest

/-- Modelled from the spec: the role mapper of the missing `roles`
package (spec section 4.4): first role whose value set contains `value`,
else the default role, else the guest role when the default is empty. -/
def mapRole (value : String) (roles : List (String × List String))
    (defaultRole : String) : String :=
  match findRole value roles with
  | some r => r
  | none => if defaultRole = "" then GuestRoleName else defaultRole

/-- Boolean list-prefix test on character lists. -/
def charsPre : List Char → List Char → Bool
  | [], _ => true
  | _ :: _, [] => false
  | a :: as, b :: bs => a == b && charsPre as bs

/-- Boolean emptiness test for strings, via the character list. -/
def strEmpty (s : String) : Bool := s.data.isEmpty

/-- True when the authorization value carries the `Bearer` scheme. -/
def schemeBearer (s : String) : Bool := charsPre "Bearer ".data s.data

/-- True when the authorization value carries the `DPoP` scheme. -/
def schemeDPoP (s : String) : Bool := charsPre "DPoP ".data s.data

/-- Raw token inside an authorization value: the value after a
`Bearer ` or `DPoP ` scheme marker, or the whole value when it carries
no scheme (as in gRPC metadata). -/
def tokenOf (s : String) : String :=
  if schemeBearer s then ⟨s.data.drop 7⟩
  else if schemeDPoP s then ⟨s.data.drop 5⟩
  else s

/-- RawCredential: per-request credential material normalized from either
transport binding (spec section 3): the first peer certificate's trust
identifiers when a certificate is present, the authorization value, and
the detached DPoP proof value. -/
structure RawCredential where
  certURIs : Option (List String)
  authorization : String
  proof : String
deriving DecidableEq

/-- Result of the opaque access-token introspector: claims on success,
`notApplicable` when the token does not match the provider's recognized
format (the Go `(nil, nil)` return), `failed` on a verification error. -/
inductive IntroResult where
  | ok : Claims → IntroResult
  | notApplicable : IntroResult
  | failed : IntroResult

/-- Injected collaborators (spec section 6): the JWT verifier (`none`
result = verification error or no verifier injected), the access-token
introspector, and the external DPoP proof parser exposing the proof
token's recomputed key thumbprint (`none` = malformed or stale proof). -/
structure Env where
  jwtParse : String → Option Claims
  introspect : String → IntroResult
  proofThumb : String → Option String

/-- Modelled from the spec: obtain claims for a raw token — the opaque
introspector first when the token matches its recognized format, falling
back to the JWT verifier when the introspector answers `(nil, nil)`
(spec sections 4.2 and 6). -/
def getClaims (env : Env) (token : String) : Option Claims :=
  match env.introspect token with
  | IntroResult.ok c => some c
  | IntroResult.notApplicable => env.jwtParse token
  | IntroResult.failed => none

/-- True when the claims' `aud` value matches the expected audience. -/
def audMatch (c : Claims) (aud : String) : Bool :=
  match lookupClaim c "aud" with
  | some (ClaimValue.vStr s) => s == aud
  | some (ClaimValue.vList l) => l.contains aud
  | _ => false

/-- Modelled from the spec: the issuer/audience check of the missing
`roles` package (spec section 4.2): when `Issuer` (resp. `Audience`) is
non-empty in the configuration, the claims must carry a matching value. -/
def claimsValid (cfg : JWTIdentityMap) (c : Claims) : Bool :=
  (cfg.Issuer == "" || claimStr c "iss" == cfg.Issuer) &&
  (cfg.Audience == "" || audMatch c cfg.Audience)

/-- Name of the thumbprint field inside the `cnf` confirmation claim
(the `dpop.CnfThumbprint` constant of the collaborating `xpki` library). -/
def CnfThumbprint : String := "jkt"

/-- Thumbprint recorded in the access token's `cnf` confirmation claim;
`none` when the claim is missing or malformed (not a map holding a
string-valued thumbprint field). -/
def cnfThumb (c : Claims) : Option String :=
  match lookupClaim c "cnf" with
  | some (ClaimValue.vMap m) =>
      match lookupClaim m CnfThumbprint with
      | some (ClaimValue.vStr s) => some s
      | _ => none
  | _ => none

/-- Effective subject claim name: configured `SubjectClaim`, defaulting
to `sub` when empty (matching the `Test_All` DPoP scenario, where no
`SubjectClaim` is configured and the subject is `claims["sub"]`). -/
def subjClaimName (cfg : JWTIdentityMap) : String :=
  if cfg.SubjectClaim = "" then "sub" else cfg.SubjectClaim

/-- Modelled from the spec: identity materialized from verified token
claims (spec sections 4.2 and 8): role from the `RoleClaim` value through
the role mapper, subject from the subject claim, tenant from `tenant`. -/
def tokenIdentity (cfg : JWTIdentityMap) (c : Claims) : Identity :=
  { role := mapRole (claimStr c cfg.RoleClaim) cfg.Roles cfg.DefaultAuthenticatedRole
  , subject := claimStr c (subjClaimName cfg)
  , tenant := claimStr c "tenant" }

/-- Modelled from the spec: identity from a single TLS trust identifier
(spec section 4.2 item 1): the identifier is looked up in `TLS.Roles`
and itself becomes the subject. -/
def tlsIdentity (cfg : TLSIdentityMap) (u : String) : Identity :=
  { role := mapRole u cfg.Roles cfg.DefaultAuthenticatedRole
  , subject := u
  , tenant := "" }

/-- Modelled from the spec: the DPoP tier (spec section 4.2 item 2 and
4.3): obtain the bound access token's claims, apply issuer/audience
checks, then compare the proof token's recomputed thumbprint with the
`cnf` thumbprint; any failure degrades to Guest. -/
def resolveDPoP (cfg : JWTIdentityMap) (env : Env) (auth prf : String) : Identity :=
  match getClaims env (tokenOf auth) with
  | none => Guest
  | some c =>
      if claimsValid cfg c then
        match env.proofThumb prf, cnfThumb c with
        | some tp, some ct => if tp == ct then tokenIdentity cfg c else Guest
        | _, _ => Guest
      else Guest

/-- Modelled from the spec: the plain bearer JWT / opaque access token
tier (spec section 4.2 item 3): obtain claims, apply issuer/audience
checks, map the role; any failure degrades to Guest. -/
def resolveJWT (cfg : JWTIdentityMap) (env : Env) (auth : String) : Identity :=
  match getClaims env (tokenOf auth) with
  | none => Guest
  | some c => if claimsValid cfg c then tokenIdentity cfg c else Guest

/-- Modelled from the spec: the token tiers of the resolver (spec
section 4.2 items 2 and 3): a `DPoP`-scheme authorization value goes to
the DPoP tier, any other non-empty value to the JWT tier; a tier that is
disabled, or an absent authorization value, yields the binding's
fallback identity. -/
def resolveToken (cfg : IdentityMap) (env : Env) (raw : RawCredential)
    (fallback : Identity) : Identity :=
  if strEmpty raw.authorization then fallback
  else if schemeDPoP raw.authorization then
    if cfg.DPoP.Enabled then resolveDPoP cfg.DPoP env raw.authorization raw.proof
    else fallback
  else
    if cfg.JWT.Enabled then resolveJWT cfg.JWT env raw.authorization
    else fallback

/-- Modelled from the spec: the identity resolver (spec section 4.2),
precedence TLS over DPoP over JWT over the fallback.  A peer certificate
with exactly one trust identifier resolves through `TLS.Roles`; a
certificate with zero or several identifiers is ambiguous and the TLS
source falls through to the token tiers without an error. -/
def resolve (cfg : IdentityMap) (env : Env) (raw : RawCredential)
    (fallback : Identity) : Identity :=
  match raw.certURIs with
  | some uris =>
      if cfg.TLS.Enabled then
        match uris with
        | [u] => tlsIdentity cfg.TLS u
        | _ => resolveToken cfg env raw fallback
      else resolveToken cfg env raw fallback
  | none => resolveToken cfg env raw fallback

/-- HTTP request as seen by the HTTP binding: trust identifiers of the
first TLS peer certificate when one is present, the `Authorization`
header value, and the `DPoP` proof header value. -/
structure HTTPRequest where
  tls : Option (List String)
  authorization : String
  dpopHeader : String

/-- RPC call context as seen by the gRPC binding: TLS peer information,
and the `authorization` / proof entries of the inbound metadata (the
metadata value may carry the raw token with no scheme marker). -/
structure RPCContext where
  peerTLS : Option (List String)
  mdAuthorization : String
  mdProof : String

/-- RawCredential extracted by the HTTP binding. -/
def rawOfRequest (r : HTTPRequest) : RawCredential :=
  ⟨r.tls, r.authorization, r.dpopHeader⟩

/-- RawCredential extracted by the RPC binding. -/
def rawOfContext (c : RPCContext) : RawCredential :=
  ⟨c.peerTLS, c.mdAuthorization, c.mdProof⟩

/-- Token of a `Bearer`-scheme authorization value, empty otherwise. -/
def bearerToken (auth : String) : String :=
  if schemeBearer auth then ⟨auth.data.drop 7⟩ else ""

/-- Modelled from the spec: the guest fallback of the HTTP binding (spec
section 9): when no enabled source consumed the credential and a
bearer-looking authorization value is present, a best-effort, unverified
subject is surfaced for diagnostics while the role stays guest
(`TestTLSOnly` asserts a non-empty subject on this path). -/
def guestForRequest (r : HTTPRequest) : Identity :=
  if strEmpty (bearerToken r.authorization) then Guest
  else { Guest with subject := bearerToken r.authorization }

/-- Modelled from the spec: `IdentityFromRequest` of the missing `roles`
package (spec section 6); the error component is reserved for structural
faults and is never produced by resolution, which is total. -/
def IdentityFromRequest (cfg : IdentityMap) (env : Env) (r : HTTPRequest) :
    Identity × Option String :=
  (resolve cfg env (rawOfRequest r) (guestForRequest r), none)

/-- Modelled from the spec: `IdentityFromContext` of the missing `roles`
package (spec section 6); the RPC guest fallback is the plain Guest
identity (`TestTLSOnly` asserts an empty subject on this path). -/
def IdentityFromContext (cfg : IdentityMap) (env : Env) (c : RPCContext)
    (_method : String) : Identity × Option String :=
  (resolve cfg env (rawOfContext c) Guest, none)

/-- True when a peer certificate is present. -/
def certPresent : Option (List String) → Bool
  | some _ => true
  | none => false

/-- Modelled from the spec: the applicability predicate (spec sections
4.1 and 8): true iff at least one enabled source's syntactic
precondition holds — certificate present for TLS, authorization value
present for JWT, `DPoP` scheme present for DPoP. -/
def applicable (cfg : IdentityMap) (raw : RawCredential) : Bool :=
  (cfg.TLS.Enabled && certPresent raw.certURIs) ||
  (cfg.JWT.Enabled && !strEmpty raw.authorization) ||
  (cfg.DPoP.Enabled && schemeDPoP raw.authorization)

/-- Modelled from the spec: `ApplicableForRequest` (spec section 6). -/
def ApplicableForRequest (cfg : IdentityMap) (r : HTTPRequest) : Bool :=
  applicable cfg (rawOfRequest r)

/-- Modelled from the spec: `ApplicableForContext` (spec section 6). -/
def ApplicableForContext (cfg : IdentityMap) (c : RPCContext) : Bool :=
  applicable cfg (rawOfContext c)

/-! Concrete fixtures mirroring the scenarios of the in-repository test
file (`Test_All`, `TestTLSOnly`, `Test_DPoPInvalid`). -/

/-- A disabled JWT/DPoP provider configuration. -/
def jwtMapOff : JWTIdentityMap := ⟨false, "", "", "", "", "", []⟩

/-- The `Test_All` configuration: all three sources enabled. -/
def allCfg : IdentityMap :=
  { TLS := ⟨true, "tls_authenticated", [("trusty-client", ["spiffe://trusty/client"])]⟩
  , JWT := ⟨true, "", "", "email", "email", "jwt_authenticated",
      [("trusty-client", ["denis@trusty.ca"])]⟩
  , DPoP := ⟨true, "", "", "", "sub", "dpop_authenticated",
      [("trusty-admin", ["12234"])]⟩ }

/-- The `TestTLSOnly` configuration: only the TLS source enabled. -/
def tlsOnlyCfg : IdentityMap :=
  { TLS := ⟨true, "tls_authenticated", [("trusty-client", ["spiffe://trusty/client"])]⟩
  , JWT := jwtMapOff
  , DPoP := jwtMapOff }

/-- The key thumbprint bound by the `Test_All` DPoP proof token. -/
def thumbAll : String := "C8kBamVR4FbaWBy4nsR6yRMWsf1dSoUqvRp5i-ixux4"

/-- The claims served by the `Test_All` mock verifier and introspector. -/
def allClaims : Claims :=
  [ ("sub", ClaimValue.vStr "12234")
  , ("email", ClaimValue.vStr "denis@trusty.com")
  , ("tenant", ClaimValue.vStr "t12341234")
  , ("cnf", ClaimValue.vMap [(CnfThumbprint, ClaimValue.vStr thumbAll)]) ]

/-- Collaborators of the `Test_All` scenario: the mock JWT verifier
always serves `allClaims`, the mock introspector recognizes tokens with
the `pat.` marker, and the proof parser reports the pinned thumbprint
for any non-empty proof. -/
def allEnv : Env :=
  { jwtParse := fun _ => some allClaims
  , introspect := fun t =>
      if charsPre "pat.".data t.data then IntroResult.ok allClaims
      else IntroResult.notApplicable
  , proofThumb := fun p => if strEmpty p then none else some thumbAll }

/-- Collaborators with nothing injected: no verifier, no introspector,
no proof parser result. -/
def emptyEnv : Env :=
  ⟨fun _ => none, fun _ => IntroResult.notApplicable, fun _ => none⟩

/-- The `TestTLSOnly` HTTP request: a bearer value, no TLS state. -/
def bearerReq : HTTPRequest := ⟨none, "Bearer AccessToken123", ""⟩

/-- RPC context carrying the same raw credential as `bearerReq`. -/
def bearerCtx : RPCContext := ⟨none, "Bearer AccessToken123", ""⟩

/-- A request whose peer certificate carries two trust identifiers while
also carrying a valid bearer token. -/
def twoURIReq : HTTPRequest :=
  ⟨some ["spiffe://trusty/client", "spiffe://trusty/client"], "Bearer AccessToken123", ""⟩

/-- The `TestInvalidIssuer` configuration: JWT and DPoP enabled with an
expected issuer that the served claims do not carry. -/
def issuerCfg : IdentityMap :=
  { TLS := ⟨false, "", []⟩
  , JWT := ⟨true, "expected_issuer", "", "", "", "jwt_authenticated",
      [("trusty-client", ["denis@trusty.ca"])]⟩
  , DPoP := ⟨true, "expected_issuer", "", "", "", "dpop_authenticated",
      [("trusty-admin", ["denis@trusty.ca"])]⟩ }

/-- The claims served by the `TestInvalidIssuer` mocks: the issuer claim
is `issuer`, not the expected `expected_issuer`. -/
def issuerClaims : Claims :=
  [ ("sub", ClaimValue.vStr "12234")
  , ("iss", ClaimValue.vStr "issuer")
  , ("email", ClaimValue.vStr "denis@trusty.com")
  , ("cnf", ClaimValue.vMap [(CnfThumbprint, ClaimValue.vStr thumbAll)]) ]

/-- Collaborators of the `TestInvalidIssuer` scenario. -/
def issuerEnv : Env :=
  { jwtParse := fun _ => some issuerClaims
  , introspect := fun t =>
      if charsPre "pat.".data t.data then IntroResult.ok issuerClaims
      else IntroResult.notApplicable
  , proofThumb := fun _ => some thumbAll }

/-- A configuration with only the DPoP source enabled: a `Bearer`-scheme
value meets no enabled source's precondition under it. -/
def dpopOnlyCfg : IdentityMap :=
  { TLS := ⟨false, "", []⟩
  , JWT := jwtMapOff
  , DPoP := ⟨true, "", "", "", "sub", "dpop_authenticated", [("trusty-admin", ["12234"])]⟩ }

end Porto

namespace Porto

/-! Helper lemmas. -/

/-- Helper: a string is non-empty iff `strEmpty` is false. -/
theorem strEmpty_false_iff (s : String) : strEmpty s = false ↔ ¬ s = "" := by
  cases s with
  | mk d =>
    cases d with
    | nil => decide
    | cons c cs =>
      simp only [strEmpty, List.isEmpty]
      constructor
      · intro _ h
        exact absurd (congrArg String.data h) (by simp)
      · intro _
        trivial

/-- Helper: a string is empty iff `strEmpty` is true. -/
theorem strEmpty_true_iff (s : String) : strEmpty s = true ↔ s = "" := by
  cases s with
  | mk d =>
    cases d with
    | nil => decide
    | cons c cs =>
      simp only [strEmpty, List.isEmpty]
      constructor
      · intro h
        exact absurd h (by simp)
      · intro h
        exact absurd (congrArg String.data h) (by simp)

/-- Helper: a `DPoP`-scheme authorization value is non-empty. -/
theorem strEmpty_of_schemeDPoP (s : String) (h : schemeDPoP s = true) :
    strEmpty s = false := by
  cases s with
  | mk d =>
    cases d with
    | nil => exact absurd h (by decide)
    | cons c cs => rfl

/-- Helper: when no enabled source's syntactic precondition is met on
the raw credential, the resolver returns the binding's fallback
identity, whatever the collaborators answer. -/
theorem resolve_of_not_applicable (cfg : IdentityMap) (env : Env) (raw : RawCredential)
    (fb : Identity) (h : applicable cfg raw = false) :
    resolve cfg env raw fb = fb := by
  have hT : (cfg.TLS.Enabled && certPresent raw.certURIs) = false := by
    cases hx : (cfg.TLS.Enabled && certPresent raw.certURIs)
    · rfl
    · rw [applicable, hx] at h
      simp at h
  have hJ : (cfg.JWT.Enabled && !strEmpty raw.authorization) = false := by
    cases hx : (cfg.JWT.Enabled && !strEmpty raw.authorization)
    · rfl
    · rw [applicable, hx] at h
      simp at h
  have hD : (cfg.DPoP.Enabled && schemeDPoP raw.authorization) = false := by
    cases hx : (cfg.DPoP.Enabled && schemeDPoP raw.authorization)
    · rfl
    · rw [applicable, hx] at h
      simp at h
  have hTok : resolveToken cfg env raw fb = fb := by
    cases h1 : strEmpty raw.authorization with
    | true => simp [resolveToken, h1]
    | false =>
      cases h2 : schemeDPoP raw.authorization with
      | true =>
        have hD' : cfg.DPoP.Enabled = false := by
          cases hE : cfg.DPoP.Enabled
          · rfl
          · rw [hE, h2] at hD
            simp at hD
        simp [resolveToken, h1, h2, hD']
      | false =>
        have hJ' : cfg.JWT.Enabled = false := by
          cases hE : cfg.JWT.Enabled
          · rfl
          · rw [hE, h1] at hJ
            simp at hJ
        simp [resolveToken, h1, h2, hJ']
  cases hc : raw.certURIs with
  | none =>
    simp only [resolve, hc]
    exact hTok
  | some uris =>
    have hT' : cfg.TLS.Enabled = false := by
      cases hE : cfg.TLS.Enabled
      · rfl
      · rw [hE, hc] at hT
        simp [certPresent] at hT
    simp only [resolve, hc, hT', Bool.false_eq_true, if_false]
    exact hTok

/-- Helper: the token resolver is parametric in its fallback identity —
it either ignores the fallback altogether or returns it unchanged. -/
theorem resolveToken_fallback_cases (cfg : IdentityMap) (env : Env)
    (raw : RawCredential) (fb fb' : Identity) :
    resolveToken cfg env raw fb = resolveToken cfg env raw fb' ∨
    (resolveToken cfg env raw fb = fb ∧ resolveToken cfg env raw fb' = fb') := by
  cases h1 : strEmpty raw.authorization with
  | true => right; constructor <;> simp [resolveToken, h1]
  | false =>
    cases h2 : schemeDPoP raw.authorization with
    | true =>
      cases h3 : cfg.DPoP.Enabled with
      | true => left; simp [resolveToken, h1, h2, h3]
      | false => right; constructor <;> simp [resolveToken, h1, h2, h3]
    | false =>
      cases h3 : cfg.JWT.Enabled with
      | true => left; simp [resolveToken, h1, h2, h3]
      | false => right; constructor <;> simp [resolveToken, h1, h2, h3]

/-- Helper: fallback parametricity lifted through the TLS tier. -/
theorem resolve_fallback_cases (cfg : IdentityMap) (env : Env)
    (raw : RawCredential) (fb fb' : Identity) :
    resolve cfg env raw fb = resolve cfg env raw fb' ∨
    (resolve cfg env raw fb = fb ∧ resolve cfg env raw fb' = fb') := by
  cases hc : raw.certURIs with
  | none =>
    simp only [resolve, hc]
    exact resolveToken_fallback_cases cfg env raw fb fb'
  | some uris =>
    cases hT : cfg.TLS.Enabled with
    | false =>
      simp only [resolve, hc, hT, Bool.false_eq_true, if_false]
      exact resolveToken_fallback_cases cfg env raw fb fb'
    | true =>
      cases uris with
      | nil =>
        simp only [resolve, hc, hT, if_true]
        exact resolveToken_fallback_cases cfg env raw fb fb'
      | cons a t =>
        cases t with
        | nil => left; simp only [resolve, hc, hT, if_true]
        | cons b t2 =>
          simp only [resolve, hc, hT, if_true]
          exact resolveToken_fallback_cases cfg env raw fb fb'

/-! Claim theorems. -/

/-- Claim C1: for every request carrying no TLS peer certificate, no
Authorization header value, and no DPoP proof, identity resolution
(`IdentityFromRequest` / `IdentityFromContext`) returns the Guest
identity with role `guest` and a nil error, for every configuration and
every set of injected collaborators. -/
theorem empty_request_resolves_to_guest (cfg : IdentityMap) (env : Env) :
    IdentityFromRequest cfg env ⟨none, "", ""⟩ = (Guest, none) ∧
    IdentityFromContext cfg env ⟨none, "", ""⟩ "/" = (Guest, none) :=
  ⟨rfl, rfl⟩

/-- Claim C2: for every valid JWT whose issuer/audience match the
configuration, resolution yields the role whose `Roles` entry contains
the `RoleClaim` value, with `Subject` equal to `claims[SubjectClaim]`
and `Tenant` equal to `claims["tenant"]`; when the `RoleClaim` value is
in no `Roles` entry, resolution yields the configured
`DefaultAuthenticatedRole` instead (the guest role when that default is
empty), with a nil error. -/
theorem jwt_resolution_maps_role_subject_tenant (cfg : IdentityMap) (env : Env)
    (auth dp : String) (c : Claims)
    (hEn : cfg.JWT.Enabled = true)
    (hAuth : ¬ auth = "")
    (hScheme : schemeDPoP auth = false)
    (hClaims : getClaims env (tokenOf auth) = some c)
    (hValid : claimsValid cfg.JWT c = true)
    (hSubj : ¬ cfg.JWT.SubjectClaim = "") :
    (∀ role, findRole (claimStr c cfg.JWT.RoleClaim) cfg.JWT.Roles = some role →
        (IdentityFromRequest cfg env ⟨none, auth, dp⟩).1.role = role) ∧
    (findRole (claimStr c cfg.JWT.RoleClaim) cfg.JWT.Roles = none →
      (IdentityFromRequest cfg env ⟨none, auth, dp⟩).1.role =
        (if cfg.JWT.DefaultAuthenticatedRole = "" then GuestRoleName
         else cfg.JWT.DefaultAuthenticatedRole)) ∧
    (IdentityFromRequest cfg env ⟨none, auth, dp⟩).1.subject =
      claimStr c cfg.JWT.SubjectClaim ∧
    (IdentityFromRequest cfg env ⟨none, auth, dp⟩).1.tenant = claimStr c "tenant" ∧
    (IdentityFromRequest cfg env ⟨none, auth, dp⟩).2 = none := by
  have hEmpty : strEmpty auth = false := (strEmpty_false_iff auth).mpr hAuth
  have hRes : (IdentityFromRequest cfg env ⟨none, auth, dp⟩).1 = tokenIdentity cfg.JWT c := by
    simp only [IdentityFromRequest, rawOfRequest, resolve, resolveToken, hEmpty, hScheme, hEn,
      resolveJWT, hClaims, hValid, Bool.false_eq_true, if_false, if_true]
  rw [hRes]
  refine ⟨?_, ?_, ?_, rfl, rfl⟩
  · intro role hFind
    simp [tokenIdentity, mapRole, hFind]
  · intro hFind
    simp [tokenIdentity, mapRole, hFind]
  · simp [tokenIdentity, subjClaimName, hSubj]

/-- Claim C2 witness: the `Test_All` bearer scenario — role falls to the
default `jwt_authenticated`, subject is the `email` claim, tenant the
`tenant` claim. -/
theorem jwt_resolution_witness :
    allCfg.JWT.Enabled = true ∧
    (IdentityFromRequest allCfg allEnv bearerReq).1.subject = claimStr allClaims "email" ∧
    (IdentityFromRequest allCfg allEnv bearerReq).1.tenant = claimStr allClaims "tenant" ∧
    (IdentityFromRequest allCfg allEnv bearerReq).1.role =
      (if allCfg.JWT.DefaultAuthenticatedRole = "" then GuestRoleName
       else allCfg.JWT.DefaultAuthenticatedRole) := by
  have h := jwt_resolution_maps_role_subject_tenant allCfg allEnv "Bearer AccessToken123" ""
    allClaims rfl (by decide) rfl rfl rfl (by decide)
  exact ⟨rfl, h.2.2.1, h.2.2.2.1, h.2.1 rfl⟩

/-- Claim C3: for every JWT or access token whose claims do not match a
non-empty configured `Issuer` or `Audience`, resolution returns the
Guest identity and a nil error — the mismatch is absorbed, never raised
— on both the HTTP and the RPC binding. -/
theorem issuer_audience_mismatch_absorbed_to_guest (cfg : IdentityMap) (env : Env)
    (auth dp : String) (ctx : RPCContext) (m : String) (c : Claims)
    (hEn : cfg.JWT.Enabled = true)
    (hAuth : ¬ auth = "")
    (hScheme : schemeDPoP auth = false)
    (hClaims : getClaims env (tokenOf auth) = some c)
    (hCtxTLS : ctx.peerTLS = none)
    (hCtxAuth : ¬ ctx.mdAuthorization = "")
    (hCtxScheme : schemeDPoP ctx.mdAuthorization = false)
    (hCtxClaims : getClaims env (tokenOf ctx.mdAuthorization) = some c)
    (hMismatch :
      (¬ cfg.JWT.Issuer = "" ∧ ¬ claimStr c "iss" = cfg.JWT.Issuer) ∨
      (¬ cfg.JWT.Audience = "" ∧ audMatch c cfg.JWT.Audience = false)) :
    IdentityFromRequest cfg env ⟨none, auth, dp⟩ = (Guest, none) ∧
    IdentityFromContext cfg env ctx m = (Guest, none) := by
  have hValid : claimsValid cfg.JWT c = false := by
    rcases hMismatch with ⟨h1, h2⟩ | ⟨h1, h2⟩ <;>
      simp [claimsValid, h1, h2]
  have hEmpty : strEmpty auth = false := (strEmpty_false_iff auth).mpr hAuth
  have hCtxEmpty : strEmpty ctx.mdAuthorization = false :=
    (strEmpty_false_iff _).mpr hCtxAuth
  constructor
  · simp only [IdentityFromRequest, rawOfRequest, resolve, resolveToken, hEmpty, hScheme, hEn,
      resolveJWT, hClaims, hValid, Bool.false_eq_true, if_false, if_true]
  · obtain ⟨ptls, mdA, mdP⟩ := ctx
    simp only at hCtxTLS hCtxEmpty hCtxScheme hCtxClaims
    subst hCtxTLS
    simp only [IdentityFromContext, rawOfContext, resolve, resolveToken, hCtxEmpty, hCtxScheme,
      hEn, resolveJWT, hCtxClaims, hValid, Bool.false_eq_true, if_false, if_true]

/-- Claim C3 witness: the `TestInvalidIssuer` scenario — claims issued
by `issuer` against an expected `expected_issuer` degrade to Guest on
both bindings. -/
theorem issuer_mismatch_witness :
    ¬ claimStr issuerClaims "iss" = issuerCfg.JWT.Issuer ∧
    IdentityFromRequest issuerCfg issuerEnv ⟨none, "Bearer AccessToken123", ""⟩ =
      (Guest, none) ∧
    IdentityFromContext issuerCfg issuerEnv ⟨none, "AccessToken123", ""⟩ "/test" =
      (Guest, none) := by
  have h := issuer_audience_mismatch_absorbed_to_guest issuerCfg issuerEnv
    "Bearer AccessToken123" "" ⟨none, "AccessToken123", ""⟩ "/test" issuerClaims
    rfl (by decide) rfl rfl rfl (by decide) rfl rfl
    (Or.inl ⟨by decide, by decide⟩)
  exact ⟨by decide, h.1, h.2⟩

/-- Claim C4: for every DPoP-bound token whose claims pass the
issuer/audience check, resolution yields the identity mapped from the
token's claims exactly when the proof token's recomputed thumbprint
equals the thumbprint in the access token's `cnf` claim; when the `cnf`
claim is missing or malformed, the thumbprints differ, or the proof is
unparsable, resolution yields the Guest identity with a nil error. -/
theorem dpop_thumbprint_binding_decides_role (cfg : IdentityMap) (env : Env)
    (auth prf : String) (c : Claims)
    (hEn : cfg.DPoP.Enabled = true)
    (hScheme : schemeDPoP auth = true)
    (hClaims : getClaims env (tokenOf auth) = some c)
    (hValid : claimsValid cfg.DPoP c = true) :
    (∀ tp, env.proofThumb prf = some tp → cnfThumb c = some tp →
      (IdentityFromRequest cfg env ⟨none, auth, prf⟩).1 = tokenIdentity cfg.DPoP c) ∧
    (cnfThumb c = none →
      IdentityFromRequest cfg env ⟨none, auth, prf⟩ = (Guest, none)) ∧
    (∀ tp ct, env.proofThumb prf = some tp → cnfThumb c = some ct → ¬ tp = ct →
      IdentityFromRequest cfg env ⟨none, auth, prf⟩ = (Guest, none)) ∧
    (env.proofThumb prf = none →
      IdentityFromRequest cfg env ⟨none, auth, prf⟩ = (Guest, none)) ∧
    (IdentityFromRequest cfg env ⟨none, auth, prf⟩).2 = none := by
  have hEmpty : strEmpty auth = false := strEmpty_of_schemeDPoP auth hScheme
  refine ⟨?_, ?_, ?_, ?_, rfl⟩
  · intro tp h1 h2
    simp only [IdentityFromRequest, rawOfRequest, resolve, resolveToken, hEmpty, hScheme, hEn,
      resolveDPoP, hClaims, hValid, h1, h2, beq_self_eq_true, if_true, if_false,
      Bool.false_eq_true]
  · intro h2
    cases h1 : env.proofThumb prf <;>
      simp only [IdentityFromRequest, rawOfRequest, resolve, resolveToken, hEmpty, hScheme, hEn,
        resolveDPoP, hClaims, hValid, h1, h2, if_true, if_false, Bool.false_eq_true]
  · intro tp ct h1 h2 hne
    simp only [IdentityFromRequest, rawOfRequest, resolve, resolveToken, hEmpty, hScheme, hEn,
      resolveDPoP, hClaims, hValid, h1, h2, beq_iff_eq, hne, if_true, if_false,
      Bool.false_eq_true, ite_false]
  · intro h1
    simp only [IdentityFromRequest, rawOfRequest, resolve, resolveToken, hEmpty, hScheme, hEn,
      resolveDPoP, hClaims, hValid, h1, if_true, if_false, Bool.false_eq_true]

/-- Claim C4 witness: the `Test_All` DPoP scenario — the pinned proof
thumbprint equals the `cnf` thumbprint, so the DPoP role mapping
applies. -/
theorem dpop_binding_witness :
    allCfg.DPoP.Enabled = true ∧
    allEnv.proofThumb "proof" = some thumbAll ∧
    cnfThumb allClaims = some thumbAll ∧
    (IdentityFromRequest allCfg allEnv ⟨none, "DPoP AccessToken123", "proof"⟩).1 =
      tokenIdentity allCfg.DPoP allClaims := by
  have h := dpop_thumbprint_binding_decides_role allCfg allEnv "DPoP AccessToken123" "proof"
    allClaims rfl rfl rfl rfl
  exact ⟨rfl, rfl, rfl, h.1 thumbAll rfl rfl⟩

end Porto

namespace Porto

/-- Claim C5 counterexample: a peer certificate exposing two trust
identifiers does not force the Guest identity — with the JWT source also
enabled and a valid bearer token attached, resolution falls through the
ambiguous TLS source and yields the JWT default role. -/
theorem tls_ambiguous_cert_not_guest_counterexample :
    (IdentityFromRequest allCfg allEnv twoURIReq).1.role = "jwt_authenticated" ∧
    ¬ (IdentityFromRequest allCfg allEnv twoURIReq).1 = Guest := by decide

/-- Claim C5 amended: a peer certificate exposing exactly one trust
identifier present in `TLS.Roles[role]` resolves to that role on both
bindings; a certificate exposing zero or two-or-more identifiers makes
the TLS source contribute nothing — resolution proceeds exactly as if no
certificate were present, and in particular yields Guest when no other
credential material is attached. -/
theorem tls_single_identifier_maps_role (cfg : IdentityMap) (env : Env)
    (uris : List String) (auth prf m : String) (u role : String)
    (hEn : cfg.TLS.Enabled = true)
    (hFind : findRole u cfg.TLS.Roles = some role) :
    (IdentityFromRequest cfg env ⟨some [u], auth, prf⟩).1.role = role ∧
    (IdentityFromContext cfg env ⟨some [u], auth, prf⟩ m).1.role = role ∧
    ((∀ v, ¬ uris = [v]) →
      IdentityFromRequest cfg env ⟨some uris, auth, prf⟩ =
        IdentityFromRequest cfg env ⟨none, auth, prf⟩ ∧
      (auth = "" →
        IdentityFromRequest cfg env ⟨some uris, auth, prf⟩ = (Guest, none) ∧
        IdentityFromContext cfg env ⟨some uris, auth, prf⟩ m = (Guest, none))) := by
  refine ⟨?_, ?_, ?_⟩
  · simp only [IdentityFromRequest, rawOfRequest, resolve, hEn, if_true, tlsIdentity,
      mapRole, hFind]
  · simp only [IdentityFromContext, rawOfContext, resolve, hEn, if_true, tlsIdentity,
      mapRole, hFind]
  · intro hAmb
    constructor
    · cases uris with
      | nil =>
        simp only [IdentityFromRequest, rawOfRequest, resolve, hEn, if_true]
        rfl
      | cons a t =>
        cases t with
        | nil => exact absurd rfl (hAmb a)
        | cons b t2 =>
          simp only [IdentityFromRequest, rawOfRequest, resolve, hEn, if_true]
          rfl
    · intro hA
      subst hA
      cases uris with
      | nil =>
        constructor
        · simp only [IdentityFromRequest, rawOfRequest, resolve, hEn, if_true]
          rfl
        · simp only [IdentityFromContext, rawOfContext, resolve, hEn, if_true]
          rfl
      | cons a t =>
        cases t with
        | nil => exact absurd rfl (hAmb a)
        | cons b t2 =>
          constructor
          · simp only [IdentityFromRequest, rawOfRequest, resolve, hEn, if_true]
            rfl
          · simp only [IdentityFromContext, rawOfContext, resolve, hEn, if_true]
            rfl

/-- Claim C5 witness: the `TestTLSOnly` scenarios — the single SPIFFE
identifier resolves to `trusty-client` on both bindings, and a two-URI
certificate with no other credential yields Guest. -/
theorem tls_single_identifier_witness :
    findRole "spiffe://trusty/client" tlsOnlyCfg.TLS.Roles = some "trusty-client" ∧
    (IdentityFromRequest tlsOnlyCfg emptyEnv
      ⟨some ["spiffe://trusty/client"], "", ""⟩).1.role = "trusty-client" ∧
    (IdentityFromContext tlsOnlyCfg emptyEnv
      ⟨some ["spiffe://trusty/client"], "", ""⟩ "/test").1.role = "trusty-client" ∧
    IdentityFromContext tlsOnlyCfg emptyEnv
      ⟨some ["spiffe://trusty/client", "spiffe://x"], "", ""⟩ "/test" = (Guest, none) := by
  have h := tls_single_identifier_maps_role tlsOnlyCfg emptyEnv
    ["spiffe://trusty/client", "spiffe://x"] "" "" "/test" "spiffe://trusty/client"
    "trusty-client" rfl rfl
  exact ⟨rfl, h.1, h.2.1, ((h.2.2 (by intro v hv; simp at hv)).2 rfl).2⟩

/-- Claim C6: `ApplicableForRequest` (resp. `ApplicableForContext`)
returns true iff at least one source enabled in the configuration has
its syntactic precondition met on the request — peer certificate present
for TLS, authorization value present for JWT, `DPoP` scheme present for
DPoP — independent of later verification; in particular, with only TLS
enabled, a request carrying only a bearer header is not applicable and
resolves to the guest role. -/
theorem applicable_iff_enabled_precondition :
    (∀ (cfg : IdentityMap) (r : HTTPRequest),
      ApplicableForRequest cfg r = true ↔
        (cfg.TLS.Enabled = true ∧ certPresent r.tls = true) ∨
        (cfg.JWT.Enabled = true ∧ ¬ r.authorization = "") ∨
        (cfg.DPoP.Enabled = true ∧ schemeDPoP r.authorization = true)) ∧
    (∀ (cfg : IdentityMap) (c : RPCContext),
      ApplicableForContext cfg c = true ↔
        (cfg.TLS.Enabled = true ∧ certPresent c.peerTLS = true) ∨
        (cfg.JWT.Enabled = true ∧ ¬ c.mdAuthorization = "") ∨
        (cfg.DPoP.Enabled = true ∧ schemeDPoP c.mdAuthorization = true)) ∧
    (ApplicableForRequest tlsOnlyCfg bearerReq = false ∧
      (IdentityFromRequest tlsOnlyCfg emptyEnv bearerReq).1.role = GuestRoleName) := by
  refine ⟨?_, ?_, by decide, by decide⟩
  · intro cfg r
    simp [ApplicableForRequest, applicable, rawOfRequest, Bool.or_eq_true, Bool.and_eq_true,
      Bool.not_eq_true', strEmpty_false_iff, or_assoc]
  · intro cfg c
    simp [ApplicableForContext, applicable, rawOfContext, Bool.or_eq_true, Bool.and_eq_true,
      Bool.not_eq_true', strEmpty_false_iff, or_assoc]

/-- Claim C7 counterexample: on the HTTP binding a request on which no
source succeeds does not always yield the constant Guest identity — with
only TLS enabled and a bearer value attached, the role is `guest` but
the surfaced diagnostic subject is non-empty (as `TestTLSOnly`
asserts). -/
theorem guest_fallback_nonempty_subject_counterexample :
    (IdentityFromRequest tlsOnlyCfg emptyEnv bearerReq).1.role = GuestRoleName ∧
    ¬ (IdentityFromRequest tlsOnlyCfg emptyEnv bearerReq).1.subject = "" := by decide

/-- Claim C7 amended: for every request on which no authentication
source applies — no source enabled in the configuration has its
syntactic precondition met, i.e. `ApplicableForRequest` (resp.
`ApplicableForContext`) is false — the resolved role is `guest` and the
tenant is empty; the subject is empty on the RPC binding (exactly the
constant Guest), while the HTTP binding surfaces the unverified bearer
token value, when one is present, as a best-effort diagnostic
subject. -/
theorem guest_fallback_role_and_tenant (cfg : IdentityMap) (env : Env)
    (r : HTTPRequest) (ctx : RPCContext) (m : String)
    (hr : ApplicableForRequest cfg r = false)
    (hc : ApplicableForContext cfg ctx = false) :
    (IdentityFromRequest cfg env r).1.role = GuestRoleName ∧
    (IdentityFromRequest cfg env r).1.tenant = "" ∧
    (IdentityFromRequest cfg env r).1.subject = bearerToken r.authorization ∧
    IdentityFromContext cfg env ctx m = (Guest, none) := by
  have hHTTP : (IdentityFromRequest cfg env r).1 = guestForRequest r :=
    resolve_of_not_applicable cfg env (rawOfRequest r) (guestForRequest r) hr
  have hRPC : (IdentityFromContext cfg env ctx m).1 = Guest :=
    resolve_of_not_applicable cfg env (rawOfContext ctx) Guest hc
  rw [hHTTP]
  refine ⟨?_, ?_, ?_, ?_⟩
  · simp only [guestForRequest]
    split <;> rfl
  · simp only [guestForRequest]
    split <;> rfl
  · simp only [guestForRequest]
    split
    · rename_i h
      rw [(strEmpty_true_iff _).mp h]
      rfl
    · rfl
  · simp only [IdentityFromContext] at hRPC ⊢
    rw [hRPC]

/-- Claim C7 witness: a configuration with DPoP enabled but JWT
disabled, against a `Bearer`-scheme value — no enabled source's
precondition is met, the HTTP binding surfaces the diagnostic subject
and the RPC binding returns the constant Guest. -/
theorem guest_fallback_witness :
    ApplicableForRequest dpopOnlyCfg bearerReq = false ∧
    (IdentityFromRequest dpopOnlyCfg allEnv bearerReq).1.role = GuestRoleName ∧
    (IdentityFromRequest dpopOnlyCfg allEnv bearerReq).1.subject =
      bearerToken bearerReq.authorization ∧
    IdentityFromContext dpopOnlyCfg allEnv ⟨none, "AccessToken123", ""⟩ "/test" =
      (Guest, none) := by
  have h := guest_fallback_role_and_tenant dpopOnlyCfg allEnv bearerReq
    ⟨none, "AccessToken123", ""⟩ "/test" (by decide) (by decide)
  exact ⟨by decide, h.1, h.2.2.1, h.2.2.2⟩

/-- Claim C8 counterexample: an HTTP request and an RPC context carrying
identical raw credential material do not always resolve to identical
identities — in the guest fallback the HTTP binding surfaces a
diagnostic subject while the RPC binding leaves it empty. -/
theorem http_rpc_guest_subject_divergence :
    rawOfRequest bearerReq = rawOfContext bearerCtx ∧
    ¬ (IdentityFromRequest tlsOnlyCfg emptyEnv bearerReq).1 =
      (IdentityFromContext tlsOnlyCfg emptyEnv bearerCtx "/test").1 := by decide

/-- Claim C8 amended: for every configuration and every pair of an HTTP
request and an RPC context carrying the same raw credential material,
the two bindings resolve to identities with the same role and the same
tenant; the identities are fully identical unless resolution lands on
the guest fallback, where the HTTP binding may surface a diagnostic
subject while the RPC binding returns the constant Guest. -/
theorem http_rpc_same_raw_same_role_tenant (cfg : IdentityMap) (env : Env)
    (r : HTTPRequest) (ctx : RPCContext) (m : String)
    (h : rawOfRequest r = rawOfContext ctx) :
    (IdentityFromRequest cfg env r).1.role = (IdentityFromContext cfg env ctx m).1.role ∧
    (IdentityFromRequest cfg env r).1.tenant = (IdentityFromContext cfg env ctx m).1.tenant ∧
    ((IdentityFromRequest cfg env r).1 = (IdentityFromContext cfg env ctx m).1 ∨
      ((IdentityFromRequest cfg env r).1 = guestForRequest r ∧
        (IdentityFromContext cfg env ctx m).1 = Guest)) := by
  have hroleG : (guestForRequest r).role = GuestRoleName := by
    simp only [guestForRequest]
    split <;> rfl
  have htenG : (guestForRequest r).tenant = "" := by
    simp only [guestForRequest]
    split <;> rfl
  simp only [IdentityFromRequest, IdentityFromContext, h]
  rcases resolve_fallback_cases cfg env (rawOfContext ctx) (guestForRequest r) Guest with
    heq | ⟨h1, h2⟩
  · rw [heq]
    exact ⟨rfl, rfl, Or.inl rfl⟩
  · rw [h1, h2]
    exact ⟨hroleG, htenG, Or.inr ⟨rfl, rfl⟩⟩

/-- Claim C8 witness: on the `Test_All` configuration the two bindings
agree on role and tenant for the same raw bearer credential. -/
theorem http_rpc_same_raw_witness :
    rawOfRequest bearerReq = rawOfContext bearerCtx ∧
    (IdentityFromRequest allCfg allEnv bearerReq).1.role =
      (IdentityFromContext allCfg allEnv bearerCtx "/test").1.role ∧
    (IdentityFromRequest allCfg allEnv bearerReq).1.tenant =
      (IdentityFromContext allCfg allEnv bearerCtx "/test").1.tenant := by
  have h := http_rpc_same_raw_same_role_tenant allCfg allEnv bearerReq bearerCtx "/test" rfl
  exact ⟨rfl, h.1, h.2.1⟩

/-- Claim C9: when the access-token introspector answers `(nil, nil)`
for a token outside its recognized format, the resolver treats this as
not applicable and obtains claims from the JWT verifier instead, so a
plain bearer token and a prefix-recognized introspectable token carrying
the same claims resolve to the same identity. -/
theorem introspector_not_applicable_falls_back_to_jwt (cfg : IdentityMap) (env : Env)
    (a1 a2 t1 t2 : String) (c : Claims)
    (hJ : cfg.JWT.Enabled = true)
    (hA1 : ¬ a1 = "") (hS1 : schemeDPoP a1 = false) (hT1 : tokenOf a1 = t1)
    (hA2 : ¬ a2 = "") (hS2 : schemeDPoP a2 = false) (hT2 : tokenOf a2 = t2)
    (hI1 : env.introspect t1 = IntroResult.ok c)
    (hI2 : env.introspect t2 = IntroResult.notApplicable)
    (hP2 : env.jwtParse t2 = some c) :
    getClaims env t2 = env.jwtParse t2 ∧
    IdentityFromRequest cfg env ⟨none, a1, ""⟩ =
      IdentityFromRequest cfg env ⟨none, a2, ""⟩ := by
  have g1 : getClaims env t1 = some c := by simp [getClaims, hI1]
  have g2 : getClaims env t2 = some c := by simp [getClaims, hI2, hP2]
  have e1 : strEmpty a1 = false := (strEmpty_false_iff a1).mpr hA1
  have e2 : strEmpty a2 = false := (strEmpty_false_iff a2).mpr hA2
  constructor
  · simp [getClaims, hI2]
  · simp only [IdentityFromRequest, rawOfRequest, resolve, resolveToken, e1, e2, hS1, hS2, hJ,
      resolveJWT, hT1, hT2, g1, g2, if_true, if_false, Bool.false_eq_true]

/-- Claim C9 witness: the `Test_All` pair of scenarios — the `pat.`
token through the introspector and the plain token through the JWT
verifier yield the same identity. -/
theorem introspector_fallback_witness :
    allEnv.introspect "pat.AccessToken123" = IntroResult.ok allClaims ∧
    allEnv.introspect "AccessToken123" = IntroResult.notApplicable ∧
    IdentityFromRequest allCfg allEnv ⟨none, "Bearer pat.AccessToken123", ""⟩ =
      IdentityFromRequest allCfg allEnv ⟨none, "Bearer AccessToken123", ""⟩ := by
  have h := introspector_not_applicable_falls_back_to_jwt allCfg allEnv
    "Bearer pat.AccessToken123" "Bearer AccessToken123" "pat.AccessToken123" "AccessToken123"
    allClaims rfl (by decide) rfl rfl (by decide) rfl rfl rfl rfl rfl
  exact ⟨rfl, rfl, h.2⟩

/-- Claim C10: in the RPC binding, an `authorization` metadata entry
carrying the raw token with no scheme marker resolves to the same
identity the HTTP binding produces for `Bearer <token>`; and an incoming
context with no metadata and no peer information is never applicable. -/
theorem rpc_schemeless_token_equals_http_bearer (cfg : IdentityMap) (env : Env)
    (t m : String)
    (hJ : cfg.JWT.Enabled = true)
    (hB : schemeBearer t = false) (hD : schemeDPoP t = false) (hne : ¬ t = "") :
    IdentityFromContext cfg env ⟨none, t, ""⟩ m =
      IdentityFromRequest cfg env ⟨none, "Bearer " ++ t, ""⟩ ∧
    (∀ cfg2 : IdentityMap, ApplicableForContext cfg2 ⟨none, "", ""⟩ = false) := by
  constructor
  · have e1 : strEmpty t = false := (strEmpty_false_iff t).mpr hne
    have e2 : strEmpty ("Bearer " ++ t) = false := by
      cases t
      rfl
    have hd2 : schemeDPoP ("Bearer " ++ t) = false := by
      cases t
      rfl
    have htok : tokenOf ("Bearer " ++ t) = t := by
      cases t
      rfl
    have htokT : tokenOf t = t := by simp [tokenOf, hB, hD]
    simp only [IdentityFromContext, IdentityFromRequest, rawOfContext, rawOfRequest, resolve,
      resolveToken, e1, e2, hd2, hD, hJ, resolveJWT, htok, htokT, if_true, if_false,
      Bool.false_eq_true]
  · intro cfg2
    have h1 : strEmpty "" = true := rfl
    have h2 : schemeDPoP "" = false := rfl
    have h3 : certPresent (none : Option (List String)) = false := rfl
    simp [ApplicableForContext, applicable, rawOfContext, h1, h2, h3]

/-- Claim C10 witness: the `Test_All` gRPC scenario — the schemeless
metadata token resolves exactly as the HTTP bearer request, and the
empty context is not applicable. -/
theorem rpc_schemeless_token_witness :
    allCfg.JWT.Enabled = true ∧
    IdentityFromContext allCfg allEnv ⟨none, "AccessToken123", ""⟩ "/test" =
      IdentityFromRequest allCfg allEnv ⟨none, "Bearer " ++ "AccessToken123", ""⟩ ∧
    ApplicableForContext allCfg ⟨none, "", ""⟩ = false := by
  have h := rpc_schemeless_token_equals_http_bearer allCfg allEnv "AccessToken123" "/test"
    rfl rfl rfl (by decide)
  exact ⟨rfl, h.1, h.2 allCfg⟩

end Porto
